import Mathlib

/-! Verification of the XYZ Plot Studio backend (parameter grid, workflow
generator, experiment executor, and HTTP orchestration layer).

The definitions below are a shallow embedding of the Python sources under
`backend/app`.  Scalar parameter values are modelled by `PVal` (integers and
strings; the claims under study never depend on float-typed values).  Python
integer arithmetic is modelled with `Int`, Python floor division `//` with
`Int.fdiv` and Python `%` with `Int.fmod` (for the positive divisors that
occur these agree with `Int.ediv`/`Int.emod`).  Python list indexing,
including its negative-index wraparound and its `IndexError` on out-of-range
access, is modelled by `pyGet` returning an `Option`.
-/

namespace XYZPlot

/-- A scalar parameter value (`Union[int, float, str]` in the source; the
integer/string fragment is embedded). -/
inductive PVal where
  | int : Int → PVal
  | str : String → PVal
deriving DecidableEq

instance : Inhabited PVal := ⟨PVal.int 0⟩

/-- Python `str(v)` for a scalar value (as used inside f-strings). -/
def PVal.pyStr : PVal → String
  | .int n => toString n
  | .str s => s

/-- Python `repr(v)` for a scalar value (as used by `str` on a list). -/
def PVal.pyRepr : PVal → String
  | .int n => toString n
  | .str s => "'" ++ s ++ "'"

/-- Python list indexing `l[i]`: non-negative indices from the front,
negative indices wrap from the back, anything else raises `IndexError`
(modelled as `none`). -/
def pyGet (l : List α) (i : Int) : Option α :=
  if 0 ≤ i then l.get? i.toNat
  else if 0 ≤ (l.length : Int) + i then l.get? ((l.length : Int) + i).toNat
  else none

/-- A Python `dict` with `String` keys, as an insertion-ordered association
list with unique keys maintained by `dictSet`. -/
abbrev PyDict (α : Type) := List (String × α)

/-- Python `d[k] = v`: overwrite in place if the key exists, else append. -/
def dictSet (d : PyDict α) (k : String) (v : α) : PyDict α :=
  if d.any (fun p => p.1 = k) then
    d.map (fun p => if p.1 = k then (k, v) else p)
  else
    d ++ [(k, v)]

/-- Python `d.get(k, default)`. -/
def dictGetD (d : PyDict α) (k : String) (dflt : α) : α :=
  match d.find? (fun p => p.1 = k) with
  | some p => p.2
  | none => dflt

/-- Python `k in d`. -/
def dictContains (d : PyDict α) (k : String) : Bool :=
  d.any (fun p => p.1 = k)

/-- Python `d.pop(k, None)`: the dictionary with the binding for `k`
removed. -/
def dictPop (d : PyDict α) (k : String) : PyDict α :=
  d.filter (fun p => ¬ p.1 = k)

/-- Embedding of `ParameterType` from `app/models/schemas.py`. -/
inductive ParameterType where
  | numeric
  | categorical
  | enum
deriving DecidableEq

/-- Embedding of `ParameterDefinition` from `app/models/schemas.py`. -/
structure ParameterDefinition where
  name : String
  display_name : String
  type : ParameterType
  values : List PVal
deriving DecidableEq

/-- Embedding of `ParameterDefinition.count`. -/
def ParameterDefinition.count (p : ParameterDefinition) : Nat :=
  p.values.length

/-- Embedding of `ParameterGrid` from `app/models/schemas.py`. -/
structure ParameterGrid where
  x_axis : ParameterDefinition
  y_axis : ParameterDefinition
  z_axis : ParameterDefinition
deriving DecidableEq

/-- The pydantic validator on `ParameterDefinition.values` enforces
`min_length=1`; a well-formed grid has three non-empty axes. -/
def ParameterGrid.WF (g : ParameterGrid) : Prop :=
  g.x_axis.values ≠ [] ∧ g.y_axis.values ≠ [] ∧ g.z_axis.values ≠ []

instance (g : ParameterGrid) : Decidable g.WF := by
  unfold ParameterGrid.WF; infer_instance

/-- Embedding of `ParameterGrid.total_combinations`. -/
def ParameterGrid.total_combinations (g : ParameterGrid) : Nat :=
  g.x_axis.count * g.y_axis.count * g.z_axis.count

/-- The dict literal built by `ParameterGrid.get_combination`. -/
def comboDict (g : ParameterGrid) (xv yv zv : PVal) : PyDict PVal :=
  dictSet (dictSet (dictSet [] g.x_axis.name xv) g.y_axis.name yv) g.z_axis.name zv

/-- Embedding of `ParameterGrid.get_combination` from `app/models/schemas.py`.  The index
arithmetic uses Python `//` (`Int.fdiv`) and `%` (`Int.fmod`); the three list
subscripts follow Python indexing (`pyGet`), so an out-of-range subscript is
an `IndexError`, modelled as `none`. -/
def ParameterGrid.get_combination (g : ParameterGrid) (index : Int) : Option (PyDict PVal) :=
  let x_count : Int := g.x_axis.count
  let y_count : Int := g.y_axis.count
  let z_idx := index.fdiv (x_count * y_count)
  let y_idx := (index.fmod (x_count * y_count)).fdiv x_count
  let x_idx := index.fmod x_count
  match pyGet g.x_axis.values x_idx, pyGet g.y_axis.values y_idx, pyGet g.z_axis.values z_idx with
  | some xv, some yv, some zv => some (comboDict g xv yv zv)
  | _, _, _ => none

/-- The X component of the §3 index decomposition, `x_idx = i mod nx`. -/
def xIdx (nx : Nat) (i : Nat) : Nat := i % nx

/-- The Y component, `y_idx = (i mod (nx*ny)) div nx`. -/
def yIdx (nx ny : Nat) (i : Nat) : Nat := (i % (nx * ny)) / nx

/-- The Z component, `z_idx = i div (nx*ny)`. -/
def zIdx (nx ny : Nat) (i : Nat) : Nat := i / (nx * ny)

/-- Combination ordinal to axis-index triple (X fastest, Z slowest). -/
def decodeIdx (nx ny : Nat) (i : Nat) : Nat × Nat × Nat :=
  (xIdx nx i, yIdx nx ny i, zIdx nx ny i)

/-- Axis-index triple to combination ordinal; inverse of `decodeIdx`. -/
def encodeIdx (nx ny : Nat) (t : Nat × Nat × Nat) : Nat :=
  t.1 + nx * t.2.1 + nx * ny * t.2.2

/-- The sample grid of the repository's test fixtures (`conftest.py`),
with the float cfg values modelled as the corresponding integers. -/
def sampleGrid : ParameterGrid :=
  { x_axis := { name := "cfg", display_name := "CFG Scale", type := .numeric,
                values := [.int 4, .int 6, .int 8, .int 10] },
    y_axis := { name := "steps", display_name := "Steps", type := .numeric,
                values := [.int 15, .int 20, .int 25, .int 30] },
    z_axis := { name := "sampler_name", display_name := "Sampler", type := .enum,
                values := [.str "euler", .str "dpmpp_2m", .str "uni_pc"] } }

/-- C1: `total_combinations = nx*ny*nz`; the index decomposition
`(z_idx, y_idx, x_idx) = (i div (nx*ny), (i mod (nx*ny)) div nx, i mod nx)`
is a bijection from `[0, total_combinations)` onto the product of the three
index ranges (X fastest, Z slowest); `get_combination` returns the dict of
the axis values at exactly those decomposed indices; index `0` yields the
first value of every axis and index `total_combinations - 1` the last. -/
def C1Prop (g : ParameterGrid) : Prop :=
  g.total_combinations = g.x_axis.count * g.y_axis.count * g.z_axis.count
  ∧ Set.BijOn (decodeIdx g.x_axis.count g.y_axis.count)
      (Set.Iio g.total_combinations)
      ((Set.Iio g.x_axis.count) ×ˢ (Set.Iio g.y_axis.count) ×ˢ (Set.Iio g.z_axis.count))
  ∧ (∀ i : Nat, i < g.total_combinations →
      g.get_combination (i : Int) =
        some (comboDict g
          (g.x_axis.values.getD (xIdx g.x_axis.count i) default)
          (g.y_axis.values.getD (yIdx g.x_axis.count g.y_axis.count i) default)
          (g.z_axis.values.getD (zIdx g.x_axis.count g.y_axis.count i) default)))
  ∧ g.get_combination 0 =
      some (comboDict g g.x_axis.values.headI g.y_axis.values.headI g.z_axis.values.headI)
  ∧ g.get_combination ((g.total_combinations : Int) - 1) =
      some (comboDict g g.x_axis.values.getLastI g.y_axis.values.getLastI
        g.z_axis.values.getLastI)

/-- C2 (amended): `get_combination` fails exactly for `index ≥
total_combinations` or `index < -total_combinations`; a negative index in
`[-total_combinations, 0)` wraps around Python-style and returns the same
mapping as `index + total_combinations`. -/
def C2Prop (g : ParameterGrid) : Prop :=
  (∀ i : Int, g.get_combination i = none ↔
      ((g.total_combinations : Int) ≤ i ∨ i < -(g.total_combinations : Int)))
  ∧ (∀ i : Int, -(g.total_combinations : Int) ≤ i → i < 0 →
      g.get_combination i = g.get_combination (i + (g.total_combinations : Int)))

/-- Python `d[k]` as an optional lookup. -/
def dictGet? (d : PyDict α) (k : String) : Option α :=
  (d.find? (fun p => p.1 = k)).map Prod.snd

/-- Embedding of `ExperimentStatus` from `app/models/schemas.py`. -/
inductive ExperimentStatus where
  | draft
  | queued
  | running
  | completed
  | failed
  | cancelled
deriving DecidableEq

/-- Embedding of `WorkflowTemplate` from `app/models/schemas.py`. -/
inductive WorkflowTemplate where
  | txt2img
  | img2img
  | hires_fix
  | lora_comparison
  | custom
deriving DecidableEq

/-- Embedding of `WorkflowConfig` from `app/models/schemas.py`. -/
structure WorkflowConfig where
  template : WorkflowTemplate
  prompt : String
  negative_prompt : String := ""
  checkpoint : String
  width : Int := 512
  height : Int := 512
  batch_size : Int := 1
  seed : Int := -1
  vae : Option String := none
  loras : Option (List (PyDict PVal)) := none
  controlnet : Option (PyDict PVal) := none
deriving DecidableEq

/-- Embedding of `ExperimentResponse` from `app/models/schemas.py`: the mutable experiment
record kept in the in-memory store.  Timestamps are abstract ticks (`Nat`);
the float `progress` is modelled as a rational. -/
structure Experiment where
  id : String
  name : String
  description : String
  status : ExperimentStatus
  parameter_grid : ParameterGrid
  workflow_config : WorkflowConfig
  total_images : Nat
  images_generated : Nat
  progress : ℚ
  created_at : Nat
  updated_at : Nat
  started_at : Option Nat := none
  completed_at : Option Nat := none
  error_message : Option String := none
  wandb_run_id : Option String := none
  wandb_run_url : Option String := none
deriving DecidableEq

/-- Embedding of `ExperimentCreate` from `app/models/schemas.py`. -/
structure ExperimentCreate where
  name : String
  description : String := ""
  parameter_grid : ParameterGrid
  workflow_config : WorkflowConfig
  multi_seed : Bool := false
  num_seeds : Nat := 1
  enable_wandb : Bool := false
  wandb_tags : List String := []
deriving DecidableEq

/-- The error kinds surfaced by the API routes (`HTTPException` reasons). -/
inductive ApiError where
  | notFound
  | alreadyRunning
  | notRunning
  | capacityExceeded
  | cancelFailed
deriving DecidableEq

/-- Default of `Settings.max_images_per_experiment` (`app/core/config.py`). -/
def defaultMaxImagesPerExperiment : Nat := 500

/-- The total-image computation of `create_experiment` in
`app/api/routes.py`: `total_combinations`, multiplied by `num_seeds` when
`multi_seed` is set. -/
def ExperimentCreate.totalImages (req : ExperimentCreate) : Nat :=
  if req.multi_seed then req.parameter_grid.total_combinations * req.num_seeds
  else req.parameter_grid.total_combinations

/-- Embedding of `create_experiment` from `app/api/routes.py`: reject with 400
(`CapacityExceeded`) when over the limit, leaving the store untouched;
otherwise store and return a fresh DRAFT record.  `newId` stands for the
generated `uuid4` and `now` for `datetime.now()`. -/
def Routes.create_experiment (maxImages : Nat) (store : PyDict Experiment)
    (req : ExperimentCreate) (newId : String) (now : Nat) :
    Except ApiError Experiment × PyDict Experiment :=
  let total_images := req.totalImages
  if total_images > maxImages then
    (Except.error ApiError.capacityExceeded, store)
  else
    let exp : Experiment :=
      { id := newId, name := req.name, description := req.description,
        status := ExperimentStatus.draft, parameter_grid := req.parameter_grid,
        workflow_config := req.workflow_config, total_images := total_images,
        images_generated := 0, progress := 0, created_at := now, updated_at := now }
    (Except.ok exp, dictSet store newId exp)

/-- Embedding of `execute_experiment` from `app/api/routes.py` (the synchronous part):
404 on unknown id, 400 (`AlreadyRunning`) only when the current status is
RUNNING, otherwise set QUEUED, stamp `updated_at` and schedule the
background task. -/
def Routes.execute_experiment (store : PyDict Experiment) (id : String)
    (now : Nat) : Except ApiError Unit × PyDict Experiment :=
  match dictGet? store id with
  | none => (Except.error ApiError.notFound, store)
  | some e =>
    if e.status = ExperimentStatus.running then
      (Except.error ApiError.alreadyRunning, store)
    else
      (Except.ok (),
        dictSet store id { e with status := ExperimentStatus.queued, updated_at := now })

/-- C3: an over-limit create request is rejected with `CapacityExceeded` and
the store is unchanged; an at-or-under-limit request stores a DRAFT record
with `images_generated = 0` and `progress = 0`. -/
def C3Prop (maxImages : Nat) (store : PyDict Experiment) (req : ExperimentCreate)
    (newId : String) (now : Nat) : Prop :=
  (maxImages < req.totalImages →
    Routes.create_experiment maxImages store req newId now
      = (Except.error ApiError.capacityExceeded, store))
  ∧ (req.totalImages ≤ maxImages →
    ∃ e : Experiment,
      Routes.create_experiment maxImages store req newId now
        = (Except.ok e, dictSet store newId e)
      ∧ e.status = ExperimentStatus.draft ∧ e.images_generated = 0
      ∧ e.progress = 0 ∧ e.total_images = req.totalImages)

/-- The sample workflow configuration of `conftest.py`. -/
def sampleConfig : WorkflowConfig :=
  { template := WorkflowTemplate.txt2img,
    prompt := "A beautiful landscape, highly detailed",
    negative_prompt := "low quality, blurry",
    checkpoint := "v1-5-pruned-emaonly.safetensors",
    width := 512, height := 512, batch_size := 1, seed := 42 }

/-- The over-limit grid of `test_create_experiment_too_many_images`
(100 × 4 × 3 = 1200 images). -/
def bigGrid : ParameterGrid :=
  { sampleGrid with
    x_axis := { name := "cfg", display_name := "CFG", type := ParameterType.numeric,
                values := (List.range 100).map (fun n => PVal.int (n + 1)) } }

/-- Create request for the sample grid. -/
def sampleCreateReq : ExperimentCreate :=
  { name := "Test XYZ Plot", description := "Testing CFG vs Steps vs Sampler",
    parameter_grid := sampleGrid, workflow_config := sampleConfig }

/-- Create request for the over-limit grid. -/
def bigCreateReq : ExperimentCreate :=
  { name := "Too Large", description := "This should fail",
    parameter_grid := bigGrid, workflow_config := sampleConfig }

/-- A COMPLETED experiment record over the sample grid. -/
def completedExp : Experiment :=
  { id := "e", name := "Test XYZ Plot", description := "",
    status := ExperimentStatus.completed, parameter_grid := sampleGrid,
    workflow_config := sampleConfig, total_images := 48, images_generated := 48,
    progress := 1, created_at := 0, updated_at := 0, started_at := some 0,
    completed_at := some 0 }

/-- C4 (amended): `execute` rejects with `AlreadyRunning` exactly when the
stored status is RUNNING; in every other status — including COMPLETED,
FAILED and CANCELLED — it succeeds and overwrites the status with QUEUED,
so those three states are not terminal. -/
def C4Prop (store : PyDict Experiment) (id : String) (now : Nat) : Prop :=
  ∀ e : Experiment, dictGet? store id = some e →
    ((Routes.execute_experiment store id now).1
        = Except.error ApiError.alreadyRunning ↔ e.status = ExperimentStatus.running)
    ∧ (e.status ≠ ExperimentStatus.running →
      Routes.execute_experiment store id now
        = (Except.ok (),
          dictSet store id { e with
                             status := ExperimentStatus.queued,
                             updated_at := now }))

/-- The executor's live-run registry `_running_experiments`
(`app/services/experiment_service.py`). -/
abbrev Registry := PyDict Bool

/-- Embedding of `ExperimentExecutor.cancel_experiment`: flip the flag to `False` if the
id is present (whatever the flag's current value) and report whether a
registry entry existed. -/
def ExperimentExecutor.cancel_experiment (reg : Registry) (experiment_id : String) :
    Bool × Registry :=
  if dictContains reg experiment_id then (true, dictSet reg experiment_id false)
  else (false, reg)

/-- Embedding of `ExperimentExecutor.is_running`: pure registry lookup with default
`False`. -/
def ExperimentExecutor.is_running (reg : Registry) (experiment_id : String) : Bool :=
  dictGetD reg experiment_id false

/-- One element of the executor's `results` list. -/
structure GenResult where
  parameters : PyDict PVal
  image_path : String
  seed : Int
  generation_time : ℚ
  index : Nat
deriving DecidableEq

/-- A callback the executor fires into the orchestrator: either
`progress_callback(current, total, result)` or `error_callback(msg)`. -/
inductive EngineEvent where
  | progress (current : Nat) (total : Nat) (result : GenResult)
  | error (msg : String)
deriving DecidableEq

/-- Outcomes of the external calls during one engine run: whether session
setup (imports, output dir, `CheckpointLoaderSimple`) succeeds, whether the
generation pipeline of the combination with a given ordinal succeeds, the
exception texts, the measured wall-clock times, and the value
`random.randint(0, 2**32 - 1)` would produce. -/
structure BackendOracle where
  sessionOk : Bool
  sessionErrMsg : String
  genOk : Nat → Bool
  genErrMsg : Nat → String
  genTime : Nat → ℚ
  randSeed : Int

/-- The triple loop of `ExperimentExecutor.execute_experiment`
(Z outer, Y middle, X inner), with the `enumerate` indices. -/
def comboList (g : ParameterGrid) : List ((Nat × PVal) × (Nat × PVal) × (Nat × PVal)) :=
  g.z_axis.values.enum.flatMap (fun zp =>
    g.y_axis.values.enum.flatMap (fun yp =>
      g.x_axis.values.enum.map (fun xp => (xp, yp, zp))))

/-- The artifact name the executor builds for one combination:
`f"{x_idx}_{y_idx}_{z_idx}"`. -/
def engineFilename (x_idx y_idx z_idx : Nat) : String :=
  toString x_idx ++ "_" ++ toString y_idx ++ "_" ++ toString z_idx

/-- What one engine run produced: the returned `results` list, the callback
events in firing order, the ordinals whose combination body invoked the
backend, and the `(ordinal, seed)` of every generation request built. -/
structure RunOutput where
  results : List GenResult
  events : List EngineEvent
  calls : List Nat
  requests : List (Nat × Int)
deriving DecidableEq

/-- The body of the executor's triple loop, one recursive step per
combination.  `flag ordinal` is the value `_running_experiments.get(id,
False)` observed at the cancellation check before that combination; when it
is `False` the loop returns the results accumulated so far.  On a
per-combination generation failure an `error` event is fired and the loop
continues with the next combination; `current_index` advances either way. -/
def engineLoop (g : ParameterGrid) (o : BackendOracle) (flag : Nat → Bool)
    (seed_base : Int) (total : Nat) :
    List ((Nat × PVal) × (Nat × PVal) × (Nat × PVal)) → Nat → RunOutput
  | [], _ => ⟨[], [], [], []⟩
  | ((x_idx, xv), (y_idx, yv), (z_idx, zv)) :: rest, current_index =>
    if flag current_index = false then ⟨[], [], [], []⟩
    else
      let params := comboDict g xv yv zv
      let seed := seed_base + current_index
      let filename := engineFilename x_idx y_idx z_idx
      let tail := engineLoop g o flag seed_base total rest (current_index + 1)
      if o.genOk current_index then
        let result : GenResult :=
          { parameters := params, image_path := filename ++ ".png", seed := seed,
            generation_time := o.genTime current_index, index := current_index }
        { results := result :: tail.results,
          events := EngineEvent.progress (current_index + 1) total result :: tail.events,
          calls := current_index :: tail.calls,
          requests := (current_index, seed) :: tail.requests }
      else
        { results := tail.results,
          events := EngineEvent.error ("Image " ++ toString current_index
            ++ " failed: " ++ o.genErrMsg current_index) :: tail.events,
          calls := current_index :: tail.calls,
          requests := (current_index, seed) :: tail.requests }

/-- Result of `ExperimentExecutor.execute_experiment`: either the returned
results (with the fired callbacks) or the re-raised exception text, plus the
registry after the `finally` cleanup. -/
structure RunResult where
  out : Except String RunOutput
  registry : Registry

/-- Embedding of `ExperimentExecutor.execute_experiment`: register the id with a running
flag, resolve the seed base once (`workflow_config.seed` when non-negative,
else a process-random 32-bit value), set up the backend session once, run
the triple loop, and pop the registry entry on every exit path (`finally`).
An engine-level failure fires `error_callback` and re-raises. -/
def ExperimentExecutor.execute_experiment (o : BackendOracle) (flag : Nat → Bool)
    (reg : Registry) (experiment_id : String) (parameter_grid : ParameterGrid)
    (workflow_config : WorkflowConfig) : RunResult :=
  let reg1 := dictSet reg experiment_id true
  if o.sessionOk then
    let seed_base := if workflow_config.seed ≥ 0 then workflow_config.seed
      else o.randSeed
    { out := Except.ok (engineLoop parameter_grid o flag seed_base
        parameter_grid.total_combinations (comboList parameter_grid) 0),
      registry := dictPop reg1 experiment_id }
  else
    { out := Except.error o.sessionErrMsg,
      registry := dictPop reg1 experiment_id }

/-- The always-true cancellation flag: the run is never cancelled. -/
def flagTrue : Nat → Bool := fun _ => true

/-- The `progress_callback` and `error_callback` closures of
`_execute_experiment_background` (`app/api/routes.py`), applied to the
shared record; `now` is `datetime.now()` at callback time.  The progress
callback divides by the `total` the engine passed. -/
def applyEvent (e : Experiment) (now : Nat) : EngineEvent → Experiment
  | EngineEvent.progress current total _ =>
      { e with
        images_generated := current,
        progress := (current : ℚ) / (total : ℚ),
        updated_at := now }
  | EngineEvent.error msg =>
      { e with
        error_message := some msg,
        updated_at := now }

/-- Apply the engine's callbacks in firing order; `ts k` is the time of the
`k`-th callback. -/
def applyEvents (ts : Nat → Nat) : Nat → Experiment → List EngineEvent → Experiment
  | _, e, [] => e
  | k, e, ev :: rest => applyEvents ts (k + 1) (applyEvent e (ts k) ev) rest

/-- Embedding of `_execute_experiment_background` from `app/api/routes.py`: set RUNNING
stamping `started_at`, run the engine (its callbacks mutate the shared
record in order), then COMPLETED on normal return — or FAILED with the
exception text when the engine raised (the engine has already fired
`error_callback` with the same text before re-raising). -/
def Routes.execute_experiment_background (o : BackendOracle) (flag : Nat → Bool)
    (reg : Registry) (ts : Nat → Nat) (tStart tEnd : Nat) (e : Experiment) :
    Experiment × RunResult :=
  let e1 := { e with
              status := ExperimentStatus.running,
              started_at := some tStart,
              updated_at := tStart }
  let rr := ExperimentExecutor.execute_experiment o flag reg e.id e.parameter_grid
    e.workflow_config
  match rr.out with
  | Except.ok st =>
      let e2 := applyEvents ts 0 e1 st.events
      ({ e2 with
         status := ExperimentStatus.completed,
         completed_at := some tEnd,
         updated_at := tEnd }, rr)
  | Except.error msg =>
      let e2 := applyEvent e1 (ts 0) (EngineEvent.error msg)
      ({ e2 with
         status := ExperimentStatus.failed,
         error_message := some msg,
         updated_at := tEnd }, rr)

/-- C5: with the run never cancelled, (a) whatever the per-combination
outcomes, the engine attempts every combination (a failed combination fires
an `error` callback with a message and the loop continues rather than
aborting); (b) when the backend fails on every combination (but session
setup succeeded), the run still returns normally with an empty result list
and the record ends COMPLETED — not FAILED — with `images_generated = 0`. -/
def C5Prop (o : BackendOracle) (reg : Registry) (ts : Nat → Nat) (t0 t1 : Nat)
    (e : Experiment) : Prop :=
  (o.sessionOk = true →
    ∃ st : RunOutput,
      (ExperimentExecutor.execute_experiment o flagTrue reg e.id e.parameter_grid
        e.workflow_config).out = Except.ok st
      ∧ st.calls = List.range e.parameter_grid.total_combinations
      ∧ (∀ k, k < e.parameter_grid.total_combinations → o.genOk k = false →
          EngineEvent.error ("Image " ++ toString k ++ " failed: "
            ++ o.genErrMsg k) ∈ st.events))
  ∧ (o.sessionOk = true → (∀ k, o.genOk k = false) → e.images_generated = 0 →
    ∃ st : RunOutput,
      (ExperimentExecutor.execute_experiment o flagTrue reg e.id e.parameter_grid
        e.workflow_config).out = Except.ok st
      ∧ st.results = []
      ∧ (Routes.execute_experiment_background o flagTrue reg ts t0 t1 e).1.status
          = ExperimentStatus.completed
      ∧ (Routes.execute_experiment_background o flagTrue reg ts t0 t1 e).1.images_generated
          = 0)

/-- An oracle whose backend fails on every combination (session setup ok). -/
def oAllFail : BackendOracle :=
  { sessionOk := true, sessionErrMsg := "", genOk := fun _ => false,
    genErrMsg := fun _ => "boom", genTime := fun _ => 0, randSeed := 7 }

/-- An oracle whose backend succeeds on every combination. -/
def oAllOk : BackendOracle :=
  { sessionOk := true, sessionErrMsg := "", genOk := fun _ => true,
    genErrMsg := fun _ => "", genTime := fun _ => 0, randSeed := 7 }

/-- A freshly created DRAFT record over the sample grid. -/
def sampleExp : Experiment :=
  { id := "e", name := "Test XYZ Plot", description := "",
    status := ExperimentStatus.draft, parameter_grid := sampleGrid,
    workflow_config := sampleConfig, total_images := 48, images_generated := 0,
    progress := 0, created_at := 0, updated_at := 0 }

/-- C6: once the registry flag observed before combination `m` is `False`
(and it was `True` before every earlier combination), the engine run equals
the uncancelled run over exactly the first `m` combinations: the results are
those accumulated so far, and the backend is invoked exactly at ordinals
`< min m total` — never after the flag went down. -/
def C6Prop (o : BackendOracle) (reg : Registry) (id : String) (g : ParameterGrid)
    (cfg : WorkflowConfig) (flag : Nat → Bool) (m : Nat) : Prop :=
  ∃ st : RunOutput,
    (ExperimentExecutor.execute_experiment o flag reg id g cfg).out = Except.ok st
    ∧ st = engineLoop g o flagTrue (if cfg.seed ≥ 0 then cfg.seed else o.randSeed)
        g.total_combinations ((comboList g).take m) 0
    ∧ st.calls = List.range (min m g.total_combinations)

/-- The cancellation flag that goes down before the combination with
ordinal 2. -/
def cancelFlag2 : Nat → Bool := fun i => decide (i < 2)

/-- C7: the seed base is resolved once per run — the configured seed when
non-negative, else the process-random 32-bit value — and the request for the
combination with enumeration ordinal `i` carries seed `seed_base + i` for
every ordinal (the ordinal advances on failed combinations too, since the
request list does not depend on the per-combination outcomes), so all seeds
of one run are pairwise distinct. -/
def C7Prop (o : BackendOracle) (reg : Registry) (id : String) (g : ParameterGrid)
    (cfg : WorkflowConfig) : Prop :=
  ∃ st : RunOutput,
    (ExperimentExecutor.execute_experiment o flagTrue reg id g cfg).out
      = Except.ok st
    ∧ st.requests = (List.range g.total_combinations).map
        (fun i : Nat => (i, (if cfg.seed ≥ 0 then cfg.seed else o.randSeed) + (i : Int)))
    ∧ (st.requests.map Prod.snd).Nodup

/-- A minimal 1×1×1 grid. -/
def miniGrid : ParameterGrid :=
  { x_axis := { name := "cfg", display_name := "CFG", type := ParameterType.numeric,
                values := [PVal.int 4] },
    y_axis := { name := "steps", display_name := "Steps", type := ParameterType.numeric,
                values := [PVal.int 15] },
    z_axis := { name := "sampler_name", display_name := "Sampler",
                type := ParameterType.enum, values := [PVal.str "euler"] } }

/-- A multi-seed create request over the minimal grid: `total_images = 2`
while `total_combinations = 1`. -/
def multiSeedReq : ExperimentCreate :=
  { name := "ms", description := "", parameter_grid := miniGrid,
    workflow_config := sampleConfig, multi_seed := true, num_seeds := 2 }

/-- C9 (amended): the progress callback leaves the status unchanged and sets
`images_generated := current`, `progress := current / total` and
`updated_at`, where `total` is the value the engine passed — and the engine
always passes `total_combinations`, not the record's `total_images` (they
differ when multi-seed is enabled). -/
def C9Prop : Prop :=
  (∀ (e : Experiment) (t current total' : Nat) (res : GenResult),
    (applyEvent e t (EngineEvent.progress current total' res)).status = e.status
    ∧ (applyEvent e t (EngineEvent.progress current total' res)).images_generated
        = current
    ∧ (applyEvent e t (EngineEvent.progress current total' res)).progress
        = (current : ℚ) / (total' : ℚ)
    ∧ (applyEvent e t (EngineEvent.progress current total' res)).updated_at = t)
  ∧ (∀ (g : ParameterGrid) (o : BackendOracle) (flag : Nat → Bool) (sb : Int)
      (c tot : Nat) (r : GenResult),
      EngineEvent.progress c tot r
        ∈ (engineLoop g o flag sb g.total_combinations (comboList g) 0).events →
      tot = g.total_combinations)

/-- The record `create_experiment` stores for `multiSeedReq`. -/
def c9e : Experiment :=
  { id := "m", name := "ms", description := "",
    status := ExperimentStatus.draft, parameter_grid := miniGrid,
    workflow_config := sampleConfig, total_images := 2, images_generated := 0,
    progress := 0, created_at := 0, updated_at := 0 }

/-- C10: `cancel_experiment` returns `True` exactly when the id is present
in the registry, whatever the flag's current value; a second cancel while
the entry is still present again returns `True`; the run removes the
registry entry on every exit path, so afterwards `cancel_experiment`
returns `False` and `is_running` is `False`; and `is_running` of an id that
is not in the registry is `False` without error. -/
def C10Prop : Prop :=
  (∀ (reg : Registry) (id : String),
    (ExperimentExecutor.cancel_experiment reg id).1 = dictContains reg id)
  ∧ (∀ (reg : Registry) (id : String),
    (ExperimentExecutor.cancel_experiment
      (ExperimentExecutor.cancel_experiment reg id).2 id).1 = dictContains reg id)
  ∧ (∀ (o : BackendOracle) (flag : Nat → Bool) (reg : Registry) (id : String)
      (g : ParameterGrid) (cfg : WorkflowConfig),
    dictContains
        (ExperimentExecutor.execute_experiment o flag reg id g cfg).registry id
        = false
    ∧ (ExperimentExecutor.cancel_experiment
        (ExperimentExecutor.execute_experiment o flag reg id g cfg).registry id).1
        = false
    ∧ ExperimentExecutor.is_running
        (ExperimentExecutor.execute_experiment o flag reg id g cfg).registry id
        = false)
  ∧ (∀ (reg : Registry) (id : String), dictContains reg id = false →
    ExperimentExecutor.is_running reg id = false)

/-- Embedding of `WorkflowGenerator._format_values`: quote each element when all values
are strings, otherwise Python's `str(list)` (elements via `repr`). -/
def formatValues (values : List PVal) : String :=
  if values.all (fun v => match v with | PVal.str _ => true | _ => false) then
    "[" ++ String.intercalate ", "
      (values.map (fun v => "'" ++ v.pyStr ++ "'")) ++ "]"
  else
    "[" ++ String.intercalate ", " (values.map PVal.pyRepr) ++ "]"

/-- One entry of `param_mapping` in `_generate_ksampler_call`: does the
parameter name `p` map to the KSampler argument `target`? -/
def paramMapsTo (p target : String) : Bool :=
  (p = "cfg" && target = "cfg") || (p = "steps" && target = "steps")
  || (p = "sampler_name" && target = "sampler_name")
  || (p = "sampler" && target = "sampler_name")
  || (p = "scheduler" && target = "scheduler")
  || (p = "denoise" && target = "denoise")

/-- The `any(...)` checks of `_generate_ksampler_call` over the three axis
names. -/
def anyParamMapsTo (x_param y_param z_param target : String) : Bool :=
  paramMapsTo x_param target || paramMapsTo y_param target
  || paramMapsTo z_param target

/-- Embedding of `WorkflowGenerator._generate_ksampler_call`. -/
def generateKSamplerCall (x_param y_param z_param : String) : String :=
  let args : List String :=
    ["model", "SEED if SEED >= 0 else random.randint(0, 2**32-1)"]
    ++ [if anyParamMapsTo x_param y_param z_param "steps" then "steps=steps"
        else "steps=20"]
    ++ [if anyParamMapsTo x_param y_param z_param "cfg" then "cfg=cfg"
        else "cfg=8.0"]
    ++ [if anyParamMapsTo x_param y_param z_param "sampler_name" then
          "sampler_name=sampler_name"
        else "sampler_name='euler'"]
    ++ [if anyParamMapsTo x_param y_param z_param "scheduler" then
          "scheduler=scheduler"
        else "scheduler='normal'"]
    ++ ["positive=positive", "negative=negative", "latent_image=latent",
        "denoise=1.0"]
  "latent = KSampler(" ++ String.intercalate ", " args ++ ")"

/-- The generated text of `_generate_txt2img_script` up to (excluding) the
formatted X-axis value list. -/
def txt2imgHead (g : ParameterGrid) : String :=
  "\"\"\"\nAuto-generated ComfyScript for XYZ Plot\nX-axis: "
  ++ g.x_axis.display_name ++ " (" ++ toString g.x_axis.values.length
  ++ " values)\nY-axis: "
  ++ g.y_axis.display_name ++ " (" ++ toString g.y_axis.values.length
  ++ " values)\nZ-axis: "
  ++ g.z_axis.display_name ++ " (" ++ toString g.z_axis.values.length
  ++ " values)\nTotal combinations: " ++ toString g.total_combinations
  ++ "\n\"\"\"\n\nfrom comfy_script.runtime import *\nload()\nfrom comfy_script.runtime.nodes import *\n\n# Parameter definitions\n"
  ++ g.x_axis.name ++ "_values = "

/-- Generated text between the X-axis and Y-axis value lists. -/
def txt2imgMid1 (g : ParameterGrid) : String :=
  "\n" ++ g.y_axis.name ++ "_values = "

/-- Generated text between the Y-axis and Z-axis value lists. -/
def txt2imgMid2 (g : ParameterGrid) : String :=
  "\n" ++ g.z_axis.name ++ "_values = "

/-- Generated text between the Z-axis value list and the XYZ loop. -/
def txt2imgMid3 (_g : ParameterGrid) (cfg : WorkflowConfig) : String :=
  "\n\n# Base configuration\nPROMPT = \"\"\"" ++ cfg.prompt
  ++ "\"\"\"\nNEGATIVE_PROMPT = \"\"\"" ++ cfg.negative_prompt
  ++ "\"\"\"\nCHECKPOINT = \"" ++ cfg.checkpoint
  ++ "\"\nWIDTH = " ++ toString cfg.width
  ++ "\nHEIGHT = " ++ toString cfg.height
  ++ "\nSEED = " ++ toString cfg.seed
  ++ "\nBATCH_SIZE = " ++ toString cfg.batch_size
  ++ "\n\n# Results storage\nresults = []\n\nwith Workflow():\n    # Load base models\n    model, clip, vae = CheckpointLoaderSimple(CHECKPOINT)\n\n    # XYZ loop\n"

/-- The generated triple loop header: Z outer, Y middle, X inner. -/
def txt2imgLoopHeader (g : ParameterGrid) : String :=
  "    for z_idx, " ++ g.z_axis.name ++ " in enumerate(" ++ g.z_axis.name
  ++ "_values):\n        for y_idx, " ++ g.y_axis.name ++ " in enumerate("
  ++ g.y_axis.name ++ "_values):\n            for x_idx, " ++ g.x_axis.name
  ++ " in enumerate(" ++ g.x_axis.name ++ "_values):\n"

/-- The generated filename line: the emitted f-string appends the three
axis values after the three `enumerate` indices. -/
def txt2imgFilenameLine (g : ParameterGrid) : String :=
  "\n                # Generate unique filename\n                filename = f\"\x7bx_idx\x7d_\x7by_idx\x7d_\x7bz_idx\x7d_\x7b"
  ++ g.x_axis.name ++ "\x7d_\x7b" ++ g.y_axis.name ++ "\x7d_\x7b"
  ++ g.z_axis.name ++ "\x7d\"\n"

/-- The generated loop body after the filename line (node calls, KSampler
line, results bookkeeping). -/
def txt2imgBodyRest (g : ParameterGrid) : String :=
  "\n                # Create latent image\n                latent = EmptyLatentImage(WIDTH, HEIGHT, BATCH_SIZE)\n\n                # Encode prompts\n                positive = CLIPTextEncode(PROMPT, clip)\n                negative = CLIPTextEncode(NEGATIVE_PROMPT, clip)\n\n                # Sample (using parameter sweep values)\n                "
  ++ generateKSamplerCall g.x_axis.name g.y_axis.name g.z_axis.name
  ++ "\n\n                # Decode and save\n                image = VAEDecode(latent, vae)\n                result = SaveImage(image, filename)\n\n                results.append(\x7b\n                    'x': "
  ++ g.x_axis.name ++ ",\n                    'y': "
  ++ g.y_axis.name ++ ",\n                    'z': "
  ++ g.z_axis.name
  ++ ",\n                    'filename': filename,\n                \x7d)\n\nprint(f\"Generated \x7blen(results)\x7d images\")\n"

/-- The generated loop body and trailer. -/
def txt2imgBody (g : ParameterGrid) : String :=
  txt2imgFilenameLine g ++ txt2imgBodyRest g

/-- Embedding of `WorkflowGenerator._generate_txt2img_script`: the full generated script
text, written as the concatenation of the fixed segments around the three
formatted value lists and the loop header. -/
def generate_txt2img_script (g : ParameterGrid) (cfg : WorkflowConfig) : String :=
  txt2imgHead g ++ formatValues g.x_axis.values
  ++ txt2imgMid1 g ++ formatValues g.y_axis.values
  ++ txt2imgMid2 g ++ formatValues g.z_axis.values
  ++ txt2imgMid3 g cfg ++ txt2imgLoopHeader g ++ txt2imgBody g

/-- Embedding of `WorkflowGenerator.generate_script`: template dispatch; `img2img` and
`hires_fix` return marked placeholders; other templates raise
`ValueError` (`UnsupportedTemplate`). -/
def WorkflowGenerator.generate_script (g : ParameterGrid) (cfg : WorkflowConfig) :
    Except String String :=
  match cfg.template with
  | WorkflowTemplate.txt2img => Except.ok (generate_txt2img_script g cfg)
  | WorkflowTemplate.img2img => Except.ok "# img2img workflow - TODO: implement"
  | WorkflowTemplate.hires_fix => Except.ok "# hires fix workflow - TODO: implement"
  | _ => Except.error "Unsupported template"

/-- The filename the generated script's f-string produces for one
combination (modelled from the `filename = f"..."` line the generator
emits): the three `enumerate` indices followed by the three axis values. -/
def scriptFilename (x_idx y_idx z_idx : Nat) (xv yv zv : PVal) : String :=
  toString x_idx ++ "_" ++ toString y_idx ++ "_" ++ toString z_idx ++ "_"
  ++ xv.pyStr ++ "_" ++ yv.pyStr ++ "_" ++ zv.pyStr

/-- Predicate: `pat` occurs verbatim inside `s`. -/
def strContains (s pat : String) : Prop :=
  ∃ a b : String, s = a ++ pat ++ b

/-- The index triples in loop order: Z outer, Y middle, X inner. -/
def tripleRange (nx ny nz : Nat) : List (Nat × Nat × Nat) :=
  (List.range nz).flatMap (fun z =>
    (List.range ny).flatMap (fun y =>
      (List.range nx).map (fun x => (x, y, z))))

/-- C8 (amended): the generated txt2img script contains the three formatted
axis value lists verbatim and nests its loops Z outer, Y middle, X inner;
the engine enumerates combinations in exactly the §3 index order (ordinal
`i` ↦ `decodeIdx i`, matching the script's loop nesting); the script's
filename f-string appears verbatim in the text; but the naming convention
differs from the engine's: for combination `(x_idx, y_idx, z_idx)` the
script's filename is the engine's artifact name with the three axis values
appended. -/
def C8Prop (g : ParameterGrid) (cfg : WorkflowConfig) : Prop :=
  strContains (generate_txt2img_script g cfg) (formatValues g.x_axis.values)
  ∧ strContains (generate_txt2img_script g cfg) (formatValues g.y_axis.values)
  ∧ strContains (generate_txt2img_script g cfg) (formatValues g.z_axis.values)
  ∧ strContains (generate_txt2img_script g cfg) (txt2imgLoopHeader g)
  ∧ strContains (generate_txt2img_script g cfg) (txt2imgFilenameLine g)
  ∧ (comboList g).map (fun c => (c.1.1, c.2.1.1, c.2.2.1))
      = (List.range g.total_combinations).map
          (decodeIdx g.x_axis.count g.y_axis.count)
  ∧ (∀ (x_idx y_idx z_idx : Nat) (xv yv zv : PVal),
      scriptFilename x_idx y_idx z_idx xv yv zv
        = engineFilename x_idx y_idx z_idx ++ "_" ++ xv.pyStr ++ "_" ++ yv.pyStr
          ++ "_" ++ zv.pyStr)


theorem encode_decode (nx ny : Nat) (i : Nat) :
    encodeIdx nx ny (decodeIdx nx ny i) = i := by
  unfold encodeIdx decodeIdx xIdx yIdx zIdx
  simp only
  have h1 : i % (nx * ny) % nx = i % nx := Nat.mod_mod_of_dvd i ⟨ny, rfl⟩
  have h2 : i % (nx * ny) % nx + nx * (i % (nx * ny) / nx) = i % (nx * ny) :=
    Nat.mod_add_div _ _
  have h3 : i % (nx * ny) + nx * ny * (i / (nx * ny)) = i :=
    Nat.mod_add_div _ _
  omega

theorem decode_encode (nx ny : Nat) (t : Nat × Nat × Nat)
    (hx : t.1 < nx) (hy : t.2.1 < ny) :
    decodeIdx nx ny (encodeIdx nx ny t) = t := by
  obtain ⟨x, y, z⟩ := t
  simp only at hx hy
  have hnx : 0 < nx := by omega
  unfold decodeIdx encodeIdx xIdx yIdx zIdx
  simp only
  have hxy : x + nx * y < nx * ny := by
    calc x + nx * y < nx + nx * y := by omega
    _ = nx * (y + 1) := by ring
    _ ≤ nx * ny := Nat.mul_le_mul_left nx (by omega)
  refine Prod.ext ?_ (Prod.ext ?_ ?_)
  · show (x + nx * y + nx * ny * z) % nx = x
    have : x + nx * y + nx * ny * z = x + nx * (y + ny * z) := by ring
    rw [this, Nat.add_mul_mod_self_left, Nat.mod_eq_of_lt hx]
  · show (x + nx * y + nx * ny * z) % (nx * ny) / nx = y
    rw [Nat.add_mul_mod_self_left, Nat.mod_eq_of_lt hxy, Nat.add_mul_div_left x y hnx,
      Nat.div_eq_of_lt hx, Nat.zero_add]
  · show (x + nx * y + nx * ny * z) / (nx * ny) = z
    have hxy' : 0 < nx * ny := Nat.mul_pos hnx (by omega)
    rw [Nat.add_mul_div_left _ z hxy', Nat.div_eq_of_lt hxy, Nat.zero_add]

theorem decode_mem (nx ny nz : Nat) (i : Nat)
    (hnx : 0 < nx) (hny : 0 < ny) (hi : i < nx * ny * nz) :
    xIdx nx i < nx ∧ yIdx nx ny i < ny ∧ zIdx nx ny i < nz := by
  refine ⟨Nat.mod_lt _ hnx, ?_, ?_⟩
  · have h : i % (nx * ny) < nx * ny := Nat.mod_lt _ (Nat.mul_pos hnx hny)
    unfold yIdx
    rw [Nat.div_lt_iff_lt_mul hnx]
    calc i % (nx * ny) < nx * ny := h
    _ = ny * nx := by ring
  · unfold zIdx
    rw [Nat.div_lt_iff_lt_mul (Nat.mul_pos hnx hny)]
    calc i < nx * ny * nz := hi
    _ = nz * (nx * ny) := by ring

theorem encode_lt (nx ny nz : Nat) (t : Nat × Nat × Nat)
    (hx : t.1 < nx) (hy : t.2.1 < ny) (hz : t.2.2 < nz) :
    encodeIdx nx ny t < nx * ny * nz := by
  obtain ⟨x, y, z⟩ := t
  simp only at hx hy hz
  unfold encodeIdx
  simp only
  calc x + nx * y + nx * ny * z
      < nx + nx * y + nx * ny * z := by omega
    _ = nx * (1 + y) + nx * ny * z := by ring
    _ ≤ nx * ny + nx * ny * z := by
        have : nx * (1 + y) ≤ nx * ny := Nat.mul_le_mul_left nx (by omega)
        omega
    _ = nx * ny * (1 + z) := by ring
    _ ≤ nx * ny * nz := Nat.mul_le_mul_left _ (by omega)

/-- The map `decodeIdx` is a bijection from `[0, nx*ny*nz)` onto the product of the
three index ranges. -/
theorem decodeIdx_bijOn (nx ny nz : Nat) (hnx : 0 < nx) (hny : 0 < ny) :
    Set.BijOn (decodeIdx nx ny) (Set.Iio (nx * ny * nz))
      ((Set.Iio nx) ×ˢ (Set.Iio ny) ×ˢ (Set.Iio nz)) := by
  refine ⟨?_, ?_, ?_⟩
  · intro i hi
    have := decode_mem nx ny nz i hnx hny hi
    exact ⟨this.1, this.2.1, this.2.2⟩
  · intro i hi j hj h
    have := congrArg (encodeIdx nx ny) h
    rwa [encode_decode, encode_decode] at this
  · intro t ht
    obtain ⟨ht1, ht2, ht3⟩ := ht
    refine ⟨encodeIdx nx ny t, ?_, ?_⟩
    · exact encode_lt nx ny nz t ht1 ht2 ht3
    · exact decode_encode nx ny t ht1 ht2

theorem get?_eq_some_getD [Inhabited α] :
    ∀ (l : List α) (n : Nat), n < l.length → l.get? n = some (l.getD n default)
  | _ :: _, 0, _ => rfl
  | _ :: t, n + 1, h => get?_eq_some_getD t n (by simpa using h)

theorem getD_zero_eq_headI [Inhabited α] (l : List α) (h : l ≠ []) :
    l.getD 0 default = l.headI := by
  cases l with
  | nil => exact absurd rfl h
  | cons a t => rfl

theorem getLastI_cons_cons [Inhabited α] (a b : α) (t : List α) :
    (a :: b :: t).getLastI = (b :: t).getLastI := by
  rw [List.getLastI_eq_getLast?, List.getLastI_eq_getLast?, List.getLast?_cons_cons]

theorem getD_last_eq_getLastI [Inhabited α] :
    ∀ (l : List α), l ≠ [] → l.getD (l.length - 1) default = l.getLastI
  | [a], _ => rfl
  | a :: b :: t, _ => by
      have ih := getD_last_eq_getLastI (b :: t) (by simp)
      have hlen : (a :: b :: t).length - 1 = (b :: t).length - 1 + 1 := by
        simp [Nat.succ_sub_one]
      rw [hlen, getLastI_cons_cons]
      simpa using ih

theorem pyGet_ofNat (l : List α) (n : Nat) : pyGet l (n : Int) = l.get? n := by
  unfold pyGet
  rw [if_pos (by omega)]
  simp

theorem pyGet_eq_none_iff (l : List α) (i : Int) :
    pyGet l i = none ↔ (i < -(l.length : Int) ∨ (l.length : Int) ≤ i) := by
  unfold pyGet
  by_cases h0 : 0 ≤ i
  · rw [if_pos h0, List.get?_eq_none]
    omega
  · rw [if_neg h0]
    by_cases h1 : 0 ≤ (l.length : Int) + i
    · rw [if_pos h1, List.get?_eq_none]
      omega
    · rw [if_neg h1]
      simp
      omega

theorem get_combination_natIdx (g : ParameterGrid) (hwf : g.WF) (i : Nat)
    (hi : i < g.total_combinations) :
    g.get_combination (i : Int) =
      some (comboDict g
        (g.x_axis.values.getD (xIdx g.x_axis.count i) default)
        (g.y_axis.values.getD (yIdx g.x_axis.count g.y_axis.count i) default)
        (g.z_axis.values.getD (zIdx g.x_axis.count g.y_axis.count i) default)) := by
  obtain ⟨hx, hy, hz⟩ := hwf
  have hnx : 0 < g.x_axis.count := List.length_pos.mpr hx
  have hny : 0 < g.y_axis.count := List.length_pos.mpr hy
  have hmem := decode_mem g.x_axis.count g.y_axis.count g.z_axis.count i hnx hny hi
  unfold ParameterGrid.get_combination
  simp only
  rw [show ((g.x_axis.count : Int) * (g.y_axis.count : Int))
      = ((g.x_axis.count * g.y_axis.count : Nat) : Int) by push_cast; ring]
  rw [← Int.ofNat_fmod, ← Int.ofNat_fmod, ← Int.ofNat_fdiv, ← Int.ofNat_fdiv]
  rw [pyGet_ofNat, pyGet_ofNat, pyGet_ofNat]
  simp only [xIdx, yIdx, zIdx] at hmem ⊢
  rw [get?_eq_some_getD _ _ hmem.1, get?_eq_some_getD _ _ hmem.2.1,
    get?_eq_some_getD _ _ hmem.2.2]

theorem decode_last (nx ny nz : Nat) (hnx : 0 < nx) (hny : 0 < ny) (hnz : 0 < nz) :
    decodeIdx nx ny (nx * ny * nz - 1) = (nx - 1, ny - 1, nz - 1) := by
  obtain ⟨a, rfl⟩ : ∃ a, nx = a + 1 := ⟨nx - 1, by omega⟩
  obtain ⟨b, rfl⟩ : ∃ b, ny = b + 1 := ⟨ny - 1, by omega⟩
  obtain ⟨c, rfl⟩ : ∃ c, nz = c + 1 := ⟨nz - 1, by omega⟩
  have henc : encodeIdx (a + 1) (b + 1) (a, b, c) = (a + 1) * (b + 1) * (c + 1) - 1 := by
    show a + (a + 1) * b + (a + 1) * (b + 1) * c = (a + 1) * (b + 1) * (c + 1) - 1
    have : (a + 1) * (b + 1) * (c + 1)
        = a + (a + 1) * b + (a + 1) * (b + 1) * c + 1 := by ring
    omega
  have := decode_encode (a + 1) (b + 1) (a, b, c)
    (by show a < a + 1; omega) (by show b < b + 1; omega)
  rw [henc] at this
  simpa using this

/-- C1: `total_combinations` is the product of the three axis value counts,
`get_combination` realises the bijective §3 index decomposition with X the
fastest-varying axis and Z the slowest, and indices `0` and
`total_combinations - 1` yield the first resp. last value of every axis. -/
theorem c1_grid_indexing_bijection (g : ParameterGrid) (hwf : g.WF) : C1Prop g := by
  obtain ⟨hx, hy, hz⟩ := hwf
  have hnx : 0 < g.x_axis.count := List.length_pos.mpr hx
  have hny : 0 < g.y_axis.count := List.length_pos.mpr hy
  have hnz : 0 < g.z_axis.count := List.length_pos.mpr hz
  have htot : 0 < g.total_combinations := Nat.mul_pos (Nat.mul_pos hnx hny) hnz
  refine ⟨rfl, decodeIdx_bijOn _ _ _ hnx hny, get_combination_natIdx g ⟨hx, hy, hz⟩, ?_, ?_⟩
  · have h0 := get_combination_natIdx g ⟨hx, hy, hz⟩ 0 htot
    rw [show xIdx g.x_axis.count 0 = 0 from Nat.zero_mod _,
      show yIdx g.x_axis.count g.y_axis.count 0 = 0 from by simp [yIdx],
      show zIdx g.x_axis.count g.y_axis.count 0 = 0 from by simp [zIdx],
      getD_zero_eq_headI _ hx, getD_zero_eq_headI _ hy, getD_zero_eq_headI _ hz] at h0
    exact_mod_cast h0
  · have hlast := get_combination_natIdx g ⟨hx, hy, hz⟩ (g.total_combinations - 1)
      (by omega)
    rw [show ((g.total_combinations - 1 : Nat) : Int)
        = (g.total_combinations : Int) - 1 by omega] at hlast
    have hdec := decode_last g.x_axis.count g.y_axis.count g.z_axis.count hnx hny hnz
    have h1 : xIdx g.x_axis.count (g.total_combinations - 1) = g.x_axis.count - 1 := by
      have := congrArg Prod.fst hdec
      simpa [decodeIdx] using this
    have h2 : yIdx g.x_axis.count g.y_axis.count (g.total_combinations - 1)
        = g.y_axis.count - 1 := by
      have := congrArg (fun t => t.2.1) hdec
      simpa [decodeIdx] using this
    have h3 : zIdx g.x_axis.count g.y_axis.count (g.total_combinations - 1)
        = g.z_axis.count - 1 := by
      have := congrArg (fun t => t.2.2) hdec
      simpa [decodeIdx] using this
    rw [h1, h2, h3] at hlast
    rw [hlast]
    rw [show g.x_axis.count - 1 = g.x_axis.values.length - 1 from rfl,
      show g.y_axis.count - 1 = g.y_axis.values.length - 1 from rfl,
      show g.z_axis.count - 1 = g.z_axis.values.length - 1 from rfl,
      getD_last_eq_getLastI _ hx, getD_last_eq_getLastI _ hy, getD_last_eq_getLastI _ hz]

/-- Witness for C1 at the repository's sample grid. -/
theorem c1_witness : sampleGrid.WF ∧ C1Prop sampleGrid :=
  ⟨by decide, c1_grid_indexing_bijection sampleGrid (by decide)⟩

theorem pyGet_nonneg (l : List α) (i : Int) (h : 0 ≤ i) :
    pyGet l i = l.get? i.toNat := by
  unfold pyGet
  rw [if_pos h]

theorem pyGet_neg (l : List α) (i : Int) (h : i < 0) (hge : 0 ≤ (l.length : Int) + i) :
    pyGet l i = l.get? ((l.length : Int) + i).toNat := by
  unfold pyGet
  rw [if_neg (by omega), if_pos hge]

theorem get_combination_eq_pyGet_z (g : ParameterGrid) (hwf : g.WF) (i : Int) :
    g.get_combination i =
      (pyGet g.z_axis.values
          (i.fdiv ((g.x_axis.count : Int) * (g.y_axis.count : Int)))).map
        (fun zv => comboDict g
          (g.x_axis.values.getD (i.fmod (g.x_axis.count : Int)).toNat default)
          (g.y_axis.values.getD
            ((i.fmod ((g.x_axis.count : Int) * (g.y_axis.count : Int))).fdiv
              (g.x_axis.count : Int)).toNat default)
          zv) := by
  obtain ⟨hx, hy, hz⟩ := hwf
  have hnx : (0 : Int) < g.x_axis.count := by exact_mod_cast List.length_pos.mpr hx
  have hny : (0 : Int) < g.y_axis.count := by exact_mod_cast List.length_pos.mpr hy
  have hxm := Int.fmod_eq_emod i (Int.le_of_lt hnx)
  have hx0 : 0 ≤ i.fmod (g.x_axis.count : Int) := by
    rw [hxm]; exact Int.emod_nonneg i (by omega)
  have hxlt : i.fmod (g.x_axis.count : Int) < g.x_axis.count := by
    rw [hxm]; exact Int.emod_lt_of_pos i hnx
  have hm := Int.fmod_eq_emod i
    (by positivity : (0:Int) ≤ (g.x_axis.count : Int) * (g.y_axis.count : Int))
  have hmul : (0 : Int) < (g.x_axis.count : Int) * (g.y_axis.count : Int) :=
    mul_pos hnx hny
  have hm0 : 0 ≤ i.fmod ((g.x_axis.count : Int) * (g.y_axis.count : Int)) := by
    rw [hm]; exact Int.emod_nonneg i (by omega)
  have hmlt : i.fmod ((g.x_axis.count : Int) * (g.y_axis.count : Int))
      < (g.x_axis.count : Int) * (g.y_axis.count : Int) := by
    rw [hm]; exact Int.emod_lt_of_pos i hmul
  have hyd := Int.fdiv_eq_ediv
    (i.fmod ((g.x_axis.count : Int) * (g.y_axis.count : Int))) (Int.le_of_lt hnx)
  have hy0 : 0 ≤ (i.fmod ((g.x_axis.count : Int) * (g.y_axis.count : Int))).fdiv
      (g.x_axis.count : Int) := by
    rw [hyd]; exact Int.ediv_nonneg hm0 (Int.le_of_lt hnx)
  have hylt : (i.fmod ((g.x_axis.count : Int) * (g.y_axis.count : Int))).fdiv
      (g.x_axis.count : Int) < g.y_axis.count := by
    rw [hyd, Int.ediv_lt_iff_lt_mul hnx]
    calc i.fmod ((g.x_axis.count : Int) * (g.y_axis.count : Int))
        < (g.x_axis.count : Int) * (g.y_axis.count : Int) := hmlt
      _ = (g.y_axis.count : Int) * (g.x_axis.count : Int) := by ring
  have hxget : pyGet g.x_axis.values (i.fmod (g.x_axis.count : Int))
      = some (g.x_axis.values.getD (i.fmod (g.x_axis.count : Int)).toNat default) := by
    unfold pyGet
    rw [if_pos hx0]
    exact get?_eq_some_getD _ _
      (by show (i.fmod (g.x_axis.count : Int)).toNat < g.x_axis.count; omega)
  have hyget : pyGet g.y_axis.values
        ((i.fmod ((g.x_axis.count : Int) * (g.y_axis.count : Int))).fdiv
          (g.x_axis.count : Int))
      = some (g.y_axis.values.getD
          ((i.fmod ((g.x_axis.count : Int) * (g.y_axis.count : Int))).fdiv
            (g.x_axis.count : Int)).toNat default) := by
    unfold pyGet
    rw [if_pos hy0]
    exact get?_eq_some_getD _ _
      (by show ((i.fmod ((g.x_axis.count : Int) * (g.y_axis.count : Int))).fdiv
          (g.x_axis.count : Int)).toNat < g.y_axis.count; omega)
  unfold ParameterGrid.get_combination
  simp only
  rw [hxget, hyget]
  cases hpz : pyGet g.z_axis.values
      (i.fdiv ((g.x_axis.count : Int) * (g.y_axis.count : Int))) with
  | none => simp
  | some zv => simp

theorem c2_amended (g : ParameterGrid) (hwf : g.WF) : C2Prop g := by
  obtain ⟨hx, hy, hz⟩ := hwf
  have hnx : (0 : Int) < g.x_axis.count := by exact_mod_cast List.length_pos.mpr hx
  have hny : (0 : Int) < g.y_axis.count := by exact_mod_cast List.length_pos.mpr hy
  have hnz : (0 : Int) < g.z_axis.count := by exact_mod_cast List.length_pos.mpr hz
  have hM : (0 : Int) < (g.x_axis.count : Int) * (g.y_axis.count : Int) :=
    mul_pos hnx hny
  have hb : g.z_axis.count = g.z_axis.values.length := rfl
  have htot : (g.total_combinations : Int)
      = (g.z_axis.count : Int) * ((g.x_axis.count : Int) * (g.y_axis.count : Int)) := by
    show ((g.x_axis.count * g.y_axis.count * g.z_axis.count : Nat) : Int) = _
    push_cast
    ring
  constructor
  · intro i
    rw [get_combination_eq_pyGet_z g ⟨hx, hy, hz⟩ i, Option.map_eq_none',
      pyGet_eq_none_iff, Int.fdiv_eq_ediv _ (Int.le_of_lt hM)]
    have h1 : (g.z_axis.count : Int)
        ≤ i / ((g.x_axis.count : Int) * (g.y_axis.count : Int)) ↔
        (g.z_axis.count : Int) * ((g.x_axis.count : Int) * (g.y_axis.count : Int))
          ≤ i :=
      Int.le_ediv_iff_mul_le hM
    have h2 : i / ((g.x_axis.count : Int) * (g.y_axis.count : Int))
        < -(g.z_axis.count : Int) ↔
        i < -(g.z_axis.count : Int)
            * ((g.x_axis.count : Int) * (g.y_axis.count : Int)) :=
      Int.ediv_lt_iff_lt_mul hM
    have hneg : -(g.z_axis.count : Int)
        * ((g.x_axis.count : Int) * (g.y_axis.count : Int))
        = -((g.z_axis.count : Int)
            * ((g.x_axis.count : Int) * (g.y_axis.count : Int))) := by ring
    rw [show ((g.z_axis.values.length : Nat) : Int) = (g.z_axis.count : Int) from rfl,
      h1, h2, hneg, ← htot]
    omega
  · intro i hge hlt
    rw [get_combination_eq_pyGet_z g ⟨hx, hy, hz⟩ i,
      get_combination_eq_pyGet_z g ⟨hx, hy, hz⟩ (i + (g.total_combinations : Int))]
    have hTx : (g.total_combinations : Int)
        = (g.x_axis.count : Int) * ((g.y_axis.count : Int) * (g.z_axis.count : Int)) := by
      rw [htot]; ring
    have hTm : (g.total_combinations : Int)
        = ((g.x_axis.count : Int) * (g.y_axis.count : Int)) * (g.z_axis.count : Int) := by
      rw [htot]; ring
    have ex : (i + (g.total_combinations : Int)).fmod (g.x_axis.count : Int)
        = i.fmod (g.x_axis.count : Int) := by
      rw [Int.fmod_eq_emod _ (Int.le_of_lt hnx), Int.fmod_eq_emod _ (Int.le_of_lt hnx),
        hTx, Int.add_mul_emod_self_left]
    have ey : (i + (g.total_combinations : Int)).fmod
          ((g.x_axis.count : Int) * (g.y_axis.count : Int))
        = i.fmod ((g.x_axis.count : Int) * (g.y_axis.count : Int)) := by
      rw [Int.fmod_eq_emod _ (Int.le_of_lt hM), Int.fmod_eq_emod _ (Int.le_of_lt hM),
        hTm, Int.add_mul_emod_self_left]
    have hq0 : i.fdiv ((g.x_axis.count : Int) * (g.y_axis.count : Int)) < 0 := by
      rw [Int.fdiv_eq_ediv _ (Int.le_of_lt hM)]
      have := (Int.ediv_lt_iff_lt_mul (a := i)
        (b := (0 : Int)) hM).mpr (by simpa using hlt)
      simpa using this
    have hqge : -(g.z_axis.count : Int)
        ≤ i.fdiv ((g.x_axis.count : Int) * (g.y_axis.count : Int)) := by
      rw [Int.fdiv_eq_ediv _ (Int.le_of_lt hM)]
      rw [Int.le_ediv_iff_mul_le hM]
      have : -(g.z_axis.count : Int)
          * ((g.x_axis.count : Int) * (g.y_axis.count : Int))
          = -(g.total_combinations : Int) := by rw [htot]; ring
      omega
    have ez : (i + (g.total_combinations : Int)).fdiv
          ((g.x_axis.count : Int) * (g.y_axis.count : Int))
        = i.fdiv ((g.x_axis.count : Int) * (g.y_axis.count : Int))
          + (g.z_axis.count : Int) := by
      rw [Int.fdiv_eq_ediv _ (Int.le_of_lt hM), Int.fdiv_eq_ediv _ (Int.le_of_lt hM),
        hTm]
      exact Int.add_mul_ediv_left i (g.z_axis.count : Int) (by omega)
    have ezget : pyGet g.z_axis.values
          ((i + (g.total_combinations : Int)).fdiv
            ((g.x_axis.count : Int) * (g.y_axis.count : Int)))
        = pyGet g.z_axis.values
            (i.fdiv ((g.x_axis.count : Int) * (g.y_axis.count : Int))) := by
      rw [ez, pyGet_nonneg g.z_axis.values
          (i.fdiv ((g.x_axis.count : Int) * (g.y_axis.count : Int))
            + (g.z_axis.count : Int)) (by omega),
        pyGet_neg g.z_axis.values
          (i.fdiv ((g.x_axis.count : Int) * (g.y_axis.count : Int))) hq0 (by omega)]
      congr 1
      omega
    rw [ex, ey, ezget]

/-- C2 counterexample: on the repository's sample grid the negative index
`-1` is outside `[0, total_combinations)`, yet `get_combination (-1)` does
not fail — it returns the mapping of the last value of every axis. -/
theorem c2_counterexample :
    sampleGrid.get_combination (-1)
      = some [("cfg", PVal.int 10), ("steps", PVal.int 30),
          ("sampler_name", PVal.str "uni_pc")] := by
  decide

/-- Witness for the amended C2 at the repository's sample grid. -/
theorem c2_witness : sampleGrid.WF ∧ C2Prop sampleGrid :=
  ⟨by decide, c2_amended sampleGrid (by decide)⟩

theorem c3_create_capacity (maxImages : Nat) (store : PyDict Experiment)
    (req : ExperimentCreate) (newId : String) (now : Nat) :
    C3Prop maxImages store req newId now := by
  constructor
  · intro h
    unfold Routes.create_experiment
    rw [if_pos (by omega)]
  · intro h
    refine ⟨{ id := newId, name := req.name, description := req.description,
              status := ExperimentStatus.draft, parameter_grid := req.parameter_grid,
              workflow_config := req.workflow_config, total_images := req.totalImages,
              images_generated := 0, progress := 0, created_at := now,
              updated_at := now },
      ?_, rfl, rfl, rfl, rfl⟩
    unfold Routes.create_experiment
    rw [if_neg (by omega)]

/-- Witness for C3: the 1200-image request is rejected with the store left
empty; the 48-image request is stored as a DRAFT record. -/
theorem c3_witness :
    (defaultMaxImagesPerExperiment < bigCreateReq.totalImages
      ∧ Routes.create_experiment defaultMaxImagesPerExperiment [] bigCreateReq "big" 0
          = (Except.error ApiError.capacityExceeded, []))
    ∧ (sampleCreateReq.totalImages ≤ defaultMaxImagesPerExperiment
      ∧ ∃ e : Experiment,
          Routes.create_experiment defaultMaxImagesPerExperiment [] sampleCreateReq
              "small" 0
            = (Except.ok e, dictSet [] "small" e)
          ∧ e.status = ExperimentStatus.draft ∧ e.images_generated = 0
          ∧ e.progress = 0 ∧ e.total_images = sampleCreateReq.totalImages) :=
  ⟨⟨by decide,
    (c3_create_capacity defaultMaxImagesPerExperiment [] bigCreateReq "big" 0).1
      (by decide)⟩,
   ⟨by decide,
    (c3_create_capacity defaultMaxImagesPerExperiment [] sampleCreateReq "small" 0).2
      (by decide)⟩⟩

/-- C4 counterexample: COMPLETED is not terminal — `execute` on a COMPLETED
experiment succeeds and moves its status back to QUEUED. -/
theorem c4_counterexample :
    Routes.execute_experiment [("e", completedExp)] "e" 1
      = (Except.ok (),
        [("e", { completedExp with
                 status := ExperimentStatus.queued, updated_at := 1 })]) := by
  rfl

theorem c4_amended (store : PyDict Experiment) (id : String) (now : Nat) :
    C4Prop store id now := by
  intro e he
  unfold Routes.execute_experiment
  simp only [he]
  by_cases hs : e.status = ExperimentStatus.running
  · rw [if_pos hs]
    exact ⟨⟨fun _ => hs, fun _ => rfl⟩, fun hne => absurd hs hne⟩
  · rw [if_neg hs]
    exact ⟨⟨fun h => absurd h (by simp), fun hs' => absurd hs' hs⟩, fun _ => rfl⟩

/-- Witness for the amended C4 at a COMPLETED record. -/
theorem c4_witness :
    ((Routes.execute_experiment [("e", completedExp)] "e" 1).1
        = Except.error ApiError.alreadyRunning
      ↔ completedExp.status = ExperimentStatus.running)
    ∧ (Routes.execute_experiment [("e", completedExp)] "e" 1
        = (Except.ok (),
          dictSet [("e", completedExp)] "e"
            { completedExp with
              status := ExperimentStatus.queued, updated_at := 1 })) :=
  ⟨(c4_amended [("e", completedExp)] "e" 1 completedExp (by decide)).1,
   (c4_amended [("e", completedExp)] "e" 1 completedExp (by decide)).2 (by decide)⟩

theorem sum_map_const {α : Type} (l : List α) (c : Nat) :
    (l.map (fun _ => c)).sum = l.length * c := by
  induction l with
  | nil => simp
  | cons a t ih => simp [ih, Nat.succ_mul, Nat.add_comm]

theorem comboList_length (g : ParameterGrid) :
    (comboList g).length = g.total_combinations := by
  simp [comboList, ParameterGrid.total_combinations, ParameterDefinition.count,
    List.flatMap_def, List.length_flatten, List.map_map, Function.comp_def,
    sum_map_const, List.enum_length]
  ring

theorem executor_out_ok (o : BackendOracle) (flag : Nat → Bool) (reg : Registry)
    (id : String) (g : ParameterGrid) (cfg : WorkflowConfig)
    (hs : o.sessionOk = true) :
    (ExperimentExecutor.execute_experiment o flag reg id g cfg).out
      = Except.ok (engineLoop g o flag
          (if cfg.seed ≥ 0 then cfg.seed else o.randSeed)
          g.total_combinations (comboList g) 0) := by
  unfold ExperimentExecutor.execute_experiment
  rw [if_pos hs]

theorem executor_registry (o : BackendOracle) (flag : Nat → Bool) (reg : Registry)
    (id : String) (g : ParameterGrid) (cfg : WorkflowConfig) :
    (ExperimentExecutor.execute_experiment o flag reg id g cfg).registry
      = dictPop (dictSet reg id true) id := by
  unfold ExperimentExecutor.execute_experiment
  by_cases hs : o.sessionOk = true
  · rw [if_pos hs]
  · rw [if_neg hs]

theorem engineLoop_true_calls (g : ParameterGrid) (o : BackendOracle) (sb : Int)
    (total : Nat) :
    ∀ (l : List ((Nat × PVal) × (Nat × PVal) × (Nat × PVal))) (i : Nat),
      (engineLoop g o flagTrue sb total l i).calls = List.range' i l.length := by
  intro l
  induction l with
  | nil => intro i; rfl
  | cons c rest ih =>
    intro i
    obtain ⟨⟨xi, xv⟩, ⟨yi, yv⟩, ⟨zi, zv⟩⟩ := c
    rw [List.length_cons, List.range'_succ]
    cases hg : o.genOk i with
    | true => simp [engineLoop, flagTrue, hg, ih]
    | false => simp [engineLoop, flagTrue, hg, ih]

theorem engineLoop_true_requests (g : ParameterGrid) (o : BackendOracle) (sb : Int)
    (total : Nat) :
    ∀ (l : List ((Nat × PVal) × (Nat × PVal) × (Nat × PVal))) (i : Nat),
      (engineLoop g o flagTrue sb total l i).requests
        = (List.range' i l.length).map (fun k : Nat => (k, sb + (k : Int))) := by
  intro l
  induction l with
  | nil => intro i; rfl
  | cons c rest ih =>
    intro i
    obtain ⟨⟨xi, xv⟩, ⟨yi, yv⟩, ⟨zi, zv⟩⟩ := c
    rw [List.length_cons, List.range'_succ, List.map_cons]
    cases hg : o.genOk i with
    | true => simp [engineLoop, flagTrue, hg, ih]
    | false => simp [engineLoop, flagTrue, hg, ih]

theorem engineLoop_allfail (g : ParameterGrid) (o : BackendOracle) (sb : Int)
    (total : Nat) (hfail : ∀ k, o.genOk k = false) :
    ∀ (l : List ((Nat × PVal) × (Nat × PVal) × (Nat × PVal))) (i : Nat),
      engineLoop g o flagTrue sb total l i
        = ⟨[],
          (List.range' i l.length).map (fun k => EngineEvent.error
            ("Image " ++ toString k ++ " failed: " ++ o.genErrMsg k)),
          List.range' i l.length,
          (List.range' i l.length).map (fun k : Nat => (k, sb + (k : Int)))⟩ := by
  intro l
  induction l with
  | nil => intro i; rfl
  | cons c rest ih =>
    intro i
    obtain ⟨⟨xi, xv⟩, ⟨yi, yv⟩, ⟨zi, zv⟩⟩ := c
    rw [List.length_cons, List.range'_succ]
    simp [engineLoop, flagTrue, hfail i, ih]

theorem engineLoop_error_mem (g : ParameterGrid) (o : BackendOracle) (sb : Int)
    (total : Nat) :
    ∀ (l : List ((Nat × PVal) × (Nat × PVal) × (Nat × PVal))) (i k : Nat),
      i ≤ k → k < i + l.length → o.genOk k = false →
      EngineEvent.error ("Image " ++ toString k ++ " failed: " ++ o.genErrMsg k)
        ∈ (engineLoop g o flagTrue sb total l i).events := by
  intro l
  induction l with
  | nil =>
    intro i k h1 h2 h3
    exfalso
    simp at h2
    omega
  | cons c rest ih =>
    intro i k h1 h2 h3
    obtain ⟨⟨xi, xv⟩, ⟨yi, yv⟩, ⟨zi, zv⟩⟩ := c
    by_cases hk : k = i
    · subst hk
      simp [engineLoop, flagTrue, h3]
    · have hmem := ih (i + 1) k (by omega) (by simp at h2 ⊢; omega) h3
      cases hg : o.genOk i with
      | true =>
        simp [engineLoop, flagTrue, hg]
        exact hmem
      | false =>
        simp [engineLoop, flagTrue, hg]
        exact Or.inr hmem

theorem engineLoop_progress_total (g : ParameterGrid) (o : BackendOracle)
    (flag : Nat → Bool) (sb : Int) (total : Nat) :
    ∀ (l : List ((Nat × PVal) × (Nat × PVal) × (Nat × PVal))) (i : Nat)
      (c tot : Nat) (r : GenResult),
      EngineEvent.progress c tot r ∈ (engineLoop g o flag sb total l i).events →
      tot = total := by
  intro l
  induction l with
  | nil =>
    intro i c tot r h
    simp [engineLoop] at h
  | cons cc rest ih =>
    intro i c tot r h
    obtain ⟨⟨xi, xv⟩, ⟨yi, yv⟩, ⟨zi, zv⟩⟩ := cc
    by_cases hf : flag i = false
    · simp [engineLoop, hf] at h
    · have hf' : flag i = true := by
        cases hfl : flag i
        · exact absurd hfl hf
        · rfl
      cases hg : o.genOk i with
      | true =>
        simp [engineLoop, hf', hg] at h
        rcases h with ⟨_, h2, _⟩ | h2
        · exact h2
        · exact ih (i + 1) c tot r h2
      | false =>
        simp [engineLoop, hf', hg] at h
        exact ih (i + 1) c tot r h

theorem engineLoop_cancel (g : ParameterGrid) (o : BackendOracle)
    (flag : Nat → Bool) (sb : Int) (total m : Nat) (hm : flag m = false) :
    ∀ (l : List ((Nat × PVal) × (Nat × PVal) × (Nat × PVal))) (i : Nat),
      i ≤ m → (∀ k, i ≤ k → k < m → flag k = true) →
      engineLoop g o flag sb total l i
        = engineLoop g o flagTrue sb total (l.take (m - i)) i := by
  intro l
  induction l with
  | nil => intro i _ _; rw [List.take_nil]; rfl
  | cons c rest ih =>
    intro i him hbef
    obtain ⟨⟨xi, xv⟩, ⟨yi, yv⟩, ⟨zi, zv⟩⟩ := c
    by_cases hi : i = m
    · subst hi
      rw [Nat.sub_self, List.take_zero]
      simp [engineLoop, hm]
    · have hilt : i < m := by omega
      have hfi : flag i = true := hbef i (Nat.le_refl i) hilt
      have htake : (((xi, xv), (yi, yv), (zi, zv)) :: rest).take (m - i)
          = ((xi, xv), (yi, yv), (zi, zv)) :: rest.take (m - (i + 1)) := by
        have hmi : m - i = (m - (i + 1)) + 1 := by omega
        rw [hmi]
        rfl
      rw [htake]
      have ihr := ih (i + 1) (by omega) (fun k hk1 hk2 => hbef k (by omega) hk2)
      cases hg : o.genOk i with
      | true => simp [engineLoop, hfi, flagTrue, hg, ihr]
      | false => simp [engineLoop, hfi, flagTrue, hg, ihr]

theorem applyEvents_status (ts : Nat → Nat) :
    ∀ (evs : List EngineEvent) (k : Nat) (e : Experiment),
      (applyEvents ts k e evs).status = e.status := by
  intro evs
  induction evs with
  | nil => intro k e; rfl
  | cons ev rest ih =>
    intro k e
    cases ev with
    | progress c tot r => exact ih (k + 1) _
    | error msg => exact ih (k + 1) _

theorem applyEvents_images_of_errors (ts : Nat → Nat) :
    ∀ (evs : List EngineEvent) (k : Nat) (e : Experiment),
      (∀ ev ∈ evs, ∀ (c tot : Nat) (r : GenResult), ev ≠ EngineEvent.progress c tot r) →
      (applyEvents ts k e evs).images_generated = e.images_generated := by
  intro evs
  induction evs with
  | nil => intro k e _; rfl
  | cons ev rest ih =>
    intro k e h
    cases ev with
    | progress c tot r =>
      exact absurd rfl (h _ (List.mem_cons_self _ _) c tot r)
    | error msg =>
      exact ih (k + 1) _ (fun ev hm => h ev (List.mem_cons_of_mem _ hm))

theorem background_ok (o : BackendOracle) (flag : Nat → Bool) (reg : Registry)
    (ts : Nat → Nat) (t0 t1 : Nat) (e : Experiment) (st : RunOutput)
    (hok : (ExperimentExecutor.execute_experiment o flag reg e.id e.parameter_grid
      e.workflow_config).out = Except.ok st) :
    (Routes.execute_experiment_background o flag reg ts t0 t1 e).1
      = { applyEvents ts 0
            { e with
              status := ExperimentStatus.running,
              started_at := some t0,
              updated_at := t0 } st.events with
          status := ExperimentStatus.completed,
          completed_at := some t1,
          updated_at := t1 } := by
  unfold Routes.execute_experiment_background
  simp only [hok]

theorem c5_failures_not_fatal (o : BackendOracle) (reg : Registry) (ts : Nat → Nat)
    (t0 t1 : Nat) (e : Experiment) : C5Prop o reg ts t0 t1 e := by
  constructor
  · intro hs
    refine ⟨_, executor_out_ok o flagTrue reg e.id e.parameter_grid
      e.workflow_config hs, ?_, ?_⟩
    · rw [engineLoop_true_calls, comboList_length, List.range_eq_range']
    · intro k hk hfk
      exact engineLoop_error_mem e.parameter_grid o _ _ (comboList e.parameter_grid)
        0 k (Nat.zero_le k) (by rw [Nat.zero_add, comboList_length]; exact hk) hfk
  · intro hs hfail hig
    have hok := executor_out_ok o flagTrue reg e.id e.parameter_grid
      e.workflow_config hs
    have hall := engineLoop_allfail e.parameter_grid o
      (if e.workflow_config.seed ≥ 0 then e.workflow_config.seed else o.randSeed)
      e.parameter_grid.total_combinations hfail (comboList e.parameter_grid) 0
    refine ⟨_, hok, ?_, ?_, ?_⟩
    · rw [hall]
    · rw [background_ok o flagTrue reg ts t0 t1 e _ hok]
    · rw [background_ok o flagTrue reg ts t0 t1 e _ hok]
      show (applyEvents ts 0 _ _).images_generated = 0
      rw [applyEvents_images_of_errors]
      · exact hig
      · rw [hall]
        intro ev hm c tot r
        simp at hm
        obtain ⟨k, hk, hev⟩ := hm
        rw [← hev]
        simp

/-- Witness for C5: the all-failing run on the sample experiment returns an
empty result list and the record ends COMPLETED with zero images. -/
theorem c5_witness :
    ((ExperimentExecutor.execute_experiment oAllFail flagTrue [] sampleExp.id
        sampleExp.parameter_grid sampleExp.workflow_config).out.toOption.map
      RunOutput.results) = some []
    ∧ (Routes.execute_experiment_background oAllFail flagTrue [] (fun _ => 2) 1 3
        sampleExp).1.status = ExperimentStatus.completed
    ∧ (Routes.execute_experiment_background oAllFail flagTrue [] (fun _ => 2) 1 3
        sampleExp).1.images_generated = 0 := by
  obtain ⟨st, hok, hres, hst, hig⟩ :=
    (c5_failures_not_fatal oAllFail [] (fun _ => 2) 1 3 sampleExp).2 rfl
      (fun _ => rfl) rfl
  rw [hok]
  exact ⟨by simp [Except.toOption, hres], hst, hig⟩

theorem c6_cancellation_boundary (o : BackendOracle) (reg : Registry) (id : String)
    (g : ParameterGrid) (cfg : WorkflowConfig) (flag : Nat → Bool) (m : Nat)
    (hs : o.sessionOk = true)
    (hbefore : ∀ k, k < m → flag k = true)
    (hm : flag m = false) : C6Prop o reg id g cfg flag m := by
  have hstop := engineLoop_cancel g o flag
    (if cfg.seed ≥ 0 then cfg.seed else o.randSeed) g.total_combinations m hm
    (comboList g) 0 (Nat.zero_le m) (fun k _ hk2 => hbefore k hk2)
  rw [Nat.sub_zero] at hstop
  refine ⟨_, executor_out_ok o flag reg id g cfg hs, hstop, ?_⟩
  rw [hstop, engineLoop_true_calls, List.length_take, comboList_length,
    List.range_eq_range']

/-- Witness for C6 on the sample grid: with the flag lowered before
ordinal 2, the backend is invoked exactly for ordinals 0 and 1. -/
theorem c6_witness :
    ((ExperimentExecutor.execute_experiment oAllOk cancelFlag2 [] "e" sampleGrid
        sampleConfig).out.toOption.map RunOutput.calls) = some (List.range 2) := by
  obtain ⟨st, hok, hteq, hcalls⟩ :=
    c6_cancellation_boundary oAllOk [] "e" sampleGrid sampleConfig cancelFlag2 2
      rfl (fun k hk => decide_eq_true hk) (by decide)
  rw [hok]
  simp only [Option.map, Except.toOption]
  rw [hcalls]
  decide

theorem c7_unique_seeds (o : BackendOracle) (reg : Registry) (id : String)
    (g : ParameterGrid) (cfg : WorkflowConfig) (hs : o.sessionOk = true) :
    C7Prop o reg id g cfg := by
  have hreq := engineLoop_true_requests g o
    (if cfg.seed ≥ 0 then cfg.seed else o.randSeed) g.total_combinations
    (comboList g) 0
  rw [comboList_length, ← List.range_eq_range'] at hreq
  refine ⟨_, executor_out_ok o flagTrue reg id g cfg hs, hreq, ?_⟩
  rw [hreq, List.map_map]
  have hinj : Function.Injective (fun k : Nat =>
      (if cfg.seed ≥ 0 then cfg.seed else o.randSeed) + (k : Int)) := by
    intro a b hab
    simp only at hab
    omega
  exact (List.nodup_range _).map hinj

/-- Witness for C7: on the sample run (configured seed 42) the 48 requests
carry seeds 42, 43, ..., 89 in ordinal order. -/
theorem c7_witness :
    ((ExperimentExecutor.execute_experiment oAllOk flagTrue [] "e" sampleGrid
        sampleConfig).out.toOption.map RunOutput.requests)
      = some ((List.range 48).map (fun i : Nat => (i, 42 + (i : Int)))) := by
  obtain ⟨st, hok, hreq, hnd⟩ :=
    c7_unique_seeds oAllOk [] "e" sampleGrid sampleConfig rfl
  rw [hok]
  simp only [Except.toOption, Option.map]
  rw [hreq]
  rfl

theorem c9_amended : C9Prop :=
  ⟨fun _ _ _ _ _ => ⟨rfl, rfl, rfl, rfl⟩,
   fun g o flag sb c tot r h =>
     engineLoop_progress_total g o flag sb g.total_combinations (comboList g) 0
       c tot r h⟩

/-- Witness for the amended C9: a concrete progress callback applied to the
sample record, and the progress event of a concrete run carrying
`total_combinations` as its total. -/
theorem c9_witness :
    ((applyEvent sampleExp 5 (EngineEvent.progress 3 48
        { parameters := [], image_path := "0_0_0.png", seed := 42,
          generation_time := 0, index := 0 })).status = sampleExp.status
      ∧ (applyEvent sampleExp 5 (EngineEvent.progress 3 48
          { parameters := [], image_path := "0_0_0.png", seed := 42,
            generation_time := 0, index := 0 })).images_generated = 3
      ∧ (applyEvent sampleExp 5 (EngineEvent.progress 3 48
          { parameters := [], image_path := "0_0_0.png", seed := 42,
            generation_time := 0, index := 0 })).progress = (3 : ℚ) / (48 : ℚ)
      ∧ (applyEvent sampleExp 5 (EngineEvent.progress 3 48
          { parameters := [], image_path := "0_0_0.png", seed := 42,
            generation_time := 0, index := 0 })).updated_at = 5)
    ∧ (1 : Nat) = miniGrid.total_combinations := by
  constructor
  · exact c9_amended.1 sampleExp 5 3 48
      { parameters := [], image_path := "0_0_0.png", seed := 42,
        generation_time := 0, index := 0 }
  · exact c9_amended.2 miniGrid oAllOk flagTrue 42 1 1
      { parameters := comboDict miniGrid (PVal.int 4) (PVal.int 15)
          (PVal.str "euler"),
        image_path := "0_0_0.png", seed := 42, generation_time := 0, index := 0 }
      (by decide)

/-- C9 counterexample: with multi-seed enabled (`num_seeds = 2` on a 1×1×1
grid) the created record has `total_images = 2`, yet after the single
successful combination the progress callback has set `images_generated = 1`
and `progress = 1/1 = 1`, which is not `images_generated / total_images =
1/2`. -/
theorem c9_counterexample :
    (Routes.create_experiment defaultMaxImagesPerExperiment [] multiSeedReq "m" 0).1
      = Except.ok c9e
    ∧ c9e.total_images = 2
    ∧ (Routes.execute_experiment_background oAllOk flagTrue [] (fun _ => 2) 1 3
        c9e).1.images_generated = 1
    ∧ (Routes.execute_experiment_background oAllOk flagTrue [] (fun _ => 2) 1 3
        c9e).1.progress = ((1 : Nat) : ℚ) / ((1 : Nat) : ℚ)
    ∧ ((1 : Nat) : ℚ) / ((1 : Nat) : ℚ) ≠ ((1 : Nat) : ℚ) / ((2 : Nat) : ℚ) := by
  refine ⟨rfl, rfl, rfl, rfl, by norm_num⟩

theorem dictContains_dictSet (d : PyDict α) (k : String) (v : α) :
    dictContains (dictSet d k v) k = true := by
  unfold dictContains dictSet
  by_cases h : d.any (fun p => p.1 = k) = true
  · rw [if_pos h]
    rw [List.any_eq_true] at h ⊢
    obtain ⟨p, hp, hpk⟩ := h
    refine ⟨(k, v), List.mem_map.mpr ⟨p, hp, ?_⟩, by simp⟩
    simp only [decide_eq_true_eq] at hpk
    rw [if_pos hpk]
  · rw [if_neg h]
    rw [List.any_eq_true]
    exact ⟨(k, v), List.mem_append_right _ (List.mem_singleton.mpr rfl), by simp⟩

theorem dictContains_dictPop (d : PyDict α) (k : String) :
    dictContains (dictPop d k) k = false := by
  unfold dictContains dictPop
  rw [List.any_eq_false]
  intro p hp
  rw [List.mem_filter] at hp
  simp only [decide_eq_true_eq] at hp ⊢
  exact hp.2

theorem is_running_dictPop (d : Registry) (k : String) :
    ExperimentExecutor.is_running (dictPop d k) k = false := by
  unfold ExperimentExecutor.is_running dictGetD dictPop
  rw [List.find?_eq_none.mpr]
  intro p hp
  rw [List.mem_filter] at hp
  simp only [decide_eq_true_eq] at hp ⊢
  exact hp.2

theorem is_running_of_not_contains (d : Registry) (k : String)
    (h : dictContains d k = false) :
    ExperimentExecutor.is_running d k = false := by
  unfold ExperimentExecutor.is_running dictGetD
  unfold dictContains at h
  rw [List.any_eq_false] at h
  rw [List.find?_eq_none.mpr h]

theorem c10_registry_cancel : C10Prop := by
  have hfst : ∀ (reg : Registry) (id : String),
      (ExperimentExecutor.cancel_experiment reg id).1 = dictContains reg id := by
    intro reg id
    unfold ExperimentExecutor.cancel_experiment
    by_cases h : dictContains reg id = true
    · rw [if_pos h, h]
    · rw [if_neg h]
      rw [Bool.not_eq_true] at h
      rw [h]
  refine ⟨hfst, ?_, ?_, is_running_of_not_contains⟩
  · intro reg id
    unfold ExperimentExecutor.cancel_experiment
    by_cases h : dictContains reg id = true
    · rw [if_pos h, h]
      show (ExperimentExecutor.cancel_experiment (dictSet reg id false) id).1 = true
      rw [hfst, dictContains_dictSet]
    · rw [if_neg h]
      rw [Bool.not_eq_true] at h
      show (ExperimentExecutor.cancel_experiment reg id).1 = dictContains reg id
      rw [hfst]
  · intro o flag reg id g cfg
    rw [executor_registry]
    exact ⟨dictContains_dictPop _ _,
      by rw [hfst, dictContains_dictPop], is_running_dictPop _ _⟩

/-- Witness for C10 at a concrete registry. -/
theorem c10_witness :
    ExperimentExecutor.is_running ([("other", true)] : Registry) "e" = false :=
  c10_registry_cancel.2.2.2 [("other", true)] "e" (by decide)

theorem pairRange_eq (nx : Nat) :
    ∀ ny : Nat, (List.range ny).flatMap (fun y =>
        (List.range nx).map (fun x => (x, y)))
      = (List.range (nx * ny)).map (fun j => (j % nx, j / nx)) := by
  intro ny
  induction ny with
  | zero => simp
  | succ n ih =>
    rw [List.range_succ, List.flatMap_append,
      show nx * (n + 1) = nx * n + nx by ring, List.range_add, List.map_append, ih]
    congr 1
    rw [List.flatMap_cons, List.flatMap_nil, List.append_nil, List.map_map]
    apply List.map_congr_left
    intro x hx
    rw [List.mem_range] at hx
    have hnx : 0 < nx := by omega
    show (x, n) = ((nx * n + x) % nx, (nx * n + x) / nx)
    have h1 : (nx * n + x) % nx = x := by
      rw [Nat.add_comm, Nat.add_mul_mod_self_left, Nat.mod_eq_of_lt hx]
    have h2 : (nx * n + x) / nx = n := by
      rw [Nat.add_comm, Nat.add_mul_div_left _ _ hnx, Nat.div_eq_of_lt hx,
        Nat.zero_add]
    rw [h1, h2]

theorem tripleRange_eq (nx ny : Nat) :
    ∀ nz : Nat, tripleRange nx ny nz
      = (List.range (nx * ny * nz)).map (decodeIdx nx ny) := by
  intro nz
  induction nz with
  | zero => simp [tripleRange]
  | succ n ih =>
    unfold tripleRange at ih ⊢
    rw [List.range_succ, List.flatMap_append, ih,
      show nx * ny * (n + 1) = nx * ny * n + nx * ny by ring, List.range_add,
      List.map_append]
    congr 1
    rw [List.flatMap_cons, List.flatMap_nil, List.append_nil, List.map_map]
    have hpair := congrArg
      (fun l : List (Nat × Nat) => l.map (fun p => (p.1, p.2, n)))
      (pairRange_eq nx ny)
    simp only [List.map_flatMap, List.map_map] at hpair
    rw [show (fun y => (List.range nx).map (fun x => (x, y, n)))
        = (fun y => (List.range nx).map
            ((fun p : Nat × Nat => (p.1, p.2, n)) ∘ (fun x => (x, y)))) from rfl]
    rw [hpair]
    apply List.map_congr_left
    intro j hj
    rw [List.mem_range] at hj
    have hnxny : 0 < nx * ny := by omega
    show ((j % nx, j / nx, n) : Nat × Nat × Nat)
      = decodeIdx nx ny (nx * ny * n + j)
    unfold decodeIdx xIdx yIdx zIdx
    have hx : (nx * ny * n + j) % nx = j % nx := by
      have : nx * ny * n + j = j + nx * (ny * n) := by ring
      rw [this, Nat.add_mul_mod_self_left]
    have hy : (nx * ny * n + j) % (nx * ny) / nx = j / nx := by
      have : nx * ny * n + j = j + (nx * ny) * n := by ring
      rw [this, Nat.add_mul_mod_self_left, Nat.mod_eq_of_lt hj]
    have hz : (nx * ny * n + j) / (nx * ny) = n := by
      have : nx * ny * n + j = j + (nx * ny) * n := by ring
      rw [this, Nat.add_mul_div_left _ _ hnxny, Nat.div_eq_of_lt hj, Nat.zero_add]
    rw [hx, hy, hz]

theorem flatMap_congr {α β : Type} {l : List α} {f g : α → List β}
    (h : ∀ a ∈ l, f a = g a) : l.flatMap f = l.flatMap g := by
  rw [List.flatMap_def, List.flatMap_def, List.map_congr_left h]

theorem map_enum_fst {α β : Type} (l : List α) (F : Nat → β) :
    l.enum.map (fun p => F p.1) = (List.range l.length).map F := by
  rw [← List.enum_map_fst l, List.map_map]
  rfl

theorem flatMap_enum_fst {α β : Type} (l : List α) (F : Nat → List β) :
    l.enum.flatMap (fun p => F p.1) = (List.range l.length).flatMap F := by
  rw [← List.enum_map_fst l, List.flatMap_map]

theorem comboList_map_indices (g : ParameterGrid) :
    (comboList g).map (fun c => (c.1.1, c.2.1.1, c.2.2.1))
      = tripleRange g.x_axis.count g.y_axis.count g.z_axis.count := by
  unfold comboList tripleRange ParameterDefinition.count
  rw [List.map_flatMap]
  have step1 : ∀ zp : Nat × PVal,
      ((g.y_axis.values.enum.flatMap (fun yp =>
        g.x_axis.values.enum.map (fun xp => (xp, yp, zp)))).map
          (fun c : (Nat × PVal) × (Nat × PVal) × (Nat × PVal) =>
            (c.1.1, c.2.1.1, c.2.2.1)))
      = (List.range g.y_axis.values.length).flatMap (fun y =>
          (List.range g.x_axis.values.length).map (fun x => (x, y, zp.1))) := by
    intro zp
    rw [List.map_flatMap]
    have hin : ∀ yp : Nat × PVal,
        ((g.x_axis.values.enum.map (fun xp => (xp, yp, zp))).map
          (fun c : (Nat × PVal) × (Nat × PVal) × (Nat × PVal) =>
            (c.1.1, c.2.1.1, c.2.2.1)))
        = (List.range g.x_axis.values.length).map (fun x => (x, yp.1, zp.1)) := by
      intro yp
      rw [List.map_map]
      exact map_enum_fst _ (fun x => (x, yp.1, zp.1))
    rw [flatMap_congr (fun yp _ => hin yp)]
    exact flatMap_enum_fst _ (fun y =>
      (List.range g.x_axis.values.length).map (fun x => (x, y, zp.1)))
  rw [flatMap_congr (fun zp _ => step1 zp)]
  exact flatMap_enum_fst _ (fun z =>
    (List.range g.y_axis.values.length).flatMap (fun y =>
      (List.range g.x_axis.values.length).map (fun x => (x, y, z))))

theorem c8_amended (g : ParameterGrid) (cfg : WorkflowConfig) : C8Prop g cfg := by
  refine ⟨?_, ?_, ?_, ?_, ?_, ?_, fun x_idx y_idx z_idx xv yv zv => rfl⟩
  · exact ⟨txt2imgHead g,
      txt2imgMid1 g ++ formatValues g.y_axis.values ++ txt2imgMid2 g
        ++ formatValues g.z_axis.values ++ txt2imgMid3 g cfg ++ txt2imgLoopHeader g
        ++ txt2imgBody g,
      by simp [generate_txt2img_script, String.append_assoc]⟩
  · exact ⟨txt2imgHead g ++ formatValues g.x_axis.values ++ txt2imgMid1 g,
      txt2imgMid2 g ++ formatValues g.z_axis.values ++ txt2imgMid3 g cfg
        ++ txt2imgLoopHeader g ++ txt2imgBody g,
      by simp [generate_txt2img_script, String.append_assoc]⟩
  · exact ⟨txt2imgHead g ++ formatValues g.x_axis.values ++ txt2imgMid1 g
        ++ formatValues g.y_axis.values ++ txt2imgMid2 g,
      txt2imgMid3 g cfg ++ txt2imgLoopHeader g ++ txt2imgBody g,
      by simp [generate_txt2img_script, String.append_assoc]⟩
  · exact ⟨txt2imgHead g ++ formatValues g.x_axis.values ++ txt2imgMid1 g
        ++ formatValues g.y_axis.values ++ txt2imgMid2 g
        ++ formatValues g.z_axis.values ++ txt2imgMid3 g cfg,
      txt2imgBody g,
      by simp [generate_txt2img_script, String.append_assoc]⟩
  · exact ⟨txt2imgHead g ++ formatValues g.x_axis.values ++ txt2imgMid1 g
        ++ formatValues g.y_axis.values ++ txt2imgMid2 g
        ++ formatValues g.z_axis.values ++ txt2imgMid3 g cfg
        ++ txt2imgLoopHeader g,
      txt2imgBodyRest g,
      by simp [generate_txt2img_script, txt2imgBody, String.append_assoc]⟩
  · rw [comboList_map_indices, tripleRange_eq]
    rfl

/-- C8 counterexample: the script's filename convention is not
byte-for-byte the engine's — the engine names the artifact of combination
`(0,0,0)` as `0_0_0` (saved as `0_0_0.png`) while the generated script's
f-string appends the three axis values, giving `0_0_0_4_15_euler` on the
minimal grid. -/
theorem c8_counterexample :
    engineFilename 0 0 0 = "0_0_0"
    ∧ scriptFilename 0 0 0 (PVal.int 4) (PVal.int 15) (PVal.str "euler")
        = "0_0_0_4_15_euler"
    ∧ engineFilename 0 0 0
        ≠ scriptFilename 0 0 0 (PVal.int 4) (PVal.int 15) (PVal.str "euler")
    ∧ ((ExperimentExecutor.execute_experiment oAllOk flagTrue [] "e" miniGrid
        sampleConfig).out.toOption.map (fun st => st.results.map GenResult.image_path))
        = some ["0_0_0.png"]
    ∧ txt2imgFilenameLine miniGrid
        = "\n                # Generate unique filename\n                filename = f\"\x7bx_idx\x7d_\x7by_idx\x7d_\x7bz_idx\x7d_\x7bcfg\x7d_\x7bsteps\x7d_\x7bsampler_name\x7d\"\n" := by
  refine ⟨rfl, rfl, by decide, rfl, rfl⟩

end XYZPlot
